import Mathlib

/-!
Shallow embedding of the vehicle telemetry data generator script
(vehicle_data_simulator.py) and verification of its specification claims.

The script builds a column-sampling configuration (category sampler,
subcategory sampler conditioned on category, LLM text column), calls a
remote preview service, normalizes the response shape, and serializes the
resulting rows to a JSON file.  Pure data and control flow are translated
directly; console printing is omitted (it has no effect on the data flow).
-/

namespace VehicleSim

/-- JSON values, as produced by the json module for the record dictionaries
the script writes (null, strings, integers, arrays, objects). -/
inductive Json where
  | null : Json
  | str : String → Json
  | int : Int → Json
  | arr : List Json → Json
  | obj : List (String × Json) → Json

/-- Decoding parameters of the configured model (temperature 0.25,
top_p 1.0, max_tokens 1024 in the source). -/
structure InferenceParameters where
  temperature : ℚ
  top_p : ℚ
  max_tokens : ℕ
deriving DecidableEq

/-- One model profile: alias, model id, provider, decoding parameters. -/
structure ModelConfig where
  «alias» : String
  model : String
  provider : String
  inference_parameters : InferenceParameters
deriving DecidableEq

/-- Parameters of the category sampler column: a flat list of values. -/
structure CategorySamplerParams where
  values : List String
deriving DecidableEq

/-- Parameters of the subcategory sampler column: the name of the
conditioning column and a mapping from each category value to the list of
subcategory values available under it. -/
structure SubcategorySamplerParams where
  category : String
  values : List (String × List String)
deriving DecidableEq

/-- The sampler kinds the script uses. -/
inductive SamplerType where
  | category : SamplerType
  | subcategory : SamplerType
deriving DecidableEq

/-- The params payload carried by a sampler column. -/
inductive SamplerParams where
  | categoryP : CategorySamplerParams → SamplerParams
  | subcategoryP : SubcategorySamplerParams → SamplerParams
deriving DecidableEq

/-- A sampler column registration (name, sampler type, params). -/
structure SamplerColumnConfig where
  name : String
  sampler_type : SamplerType
  params : SamplerParams
deriving DecidableEq

/-- An LLM text column registration via the simplified add_column API. -/
structure LLMTextColumnSpec where
  name : String
  column_type : String
  model_alias : String
  prompt : String
deriving DecidableEq

/-- A column registered on the config builder. -/
inductive ColumnConfig where
  | sampler : SamplerColumnConfig → ColumnConfig
  | llmText : LLMTextColumnSpec → ColumnConfig
deriving DecidableEq

/-- The config builder: its model configs and the columns added so far,
in registration order. -/
structure DataDesignerConfigBuilder where
  model_configs : List ModelConfig
  columns : List ColumnConfig
deriving DecidableEq

/-- add_column appends a column to the builder. -/
def DataDesignerConfigBuilder.add_column (cb : DataDesignerConfigBuilder)
    (c : ColumnConfig) : DataDesignerConfigBuilder :=
  { cb with columns := cb.columns ++ [c] }

/-- STEP 2 (setup_model_configuration): one model profile wrapped in a
fresh config builder; returns the builder and the model alias. -/
def setup_model_configuration : DataDesignerConfigBuilder × String :=
  let MODEL_PROVIDER := "nvidiabuild"
  let MODEL_ID := "nvidia/nemotron-3-nano-30b-a3b"
  let MODEL_ALIAS := "nemotron-nano-v3"
  let model_configs : List ModelConfig :=
    [{ «alias» := MODEL_ALIAS, model := MODEL_ID, provider := MODEL_PROVIDER,
       inference_parameters :=
        { temperature := 1/4, top_p := 1, max_tokens := 1024 } }]
  ({ model_configs := model_configs, columns := [] }, MODEL_ALIAS)

/-- STEP 3 (define_dimo_categories): the static taxonomy, an ordered
mapping from category name to its list of subcategory names, exactly as
declared in the source. -/
def define_dimo_categories : List (String × List String) :=
  [("vehicle_info_status",
     ["odometer_reading", "ignition_status", "vehicle_speed",
      "powertrain_type", "remaining_range"]),
   ("location_data",
     ["latitude_longitude", "altitude", "approximate_location",
      "location_privacy_zones"]),
   ("battery_charging",
     ["state_of_charge", "charging_status", "charge_limit", "battery_power",
      "charging_current_voltage", "gross_battery_capacity",
      "remaining_energy", "low_voltage_battery"]),
   ("engine_metrics",
     ["engine_rpm", "throttle_position", "engine_air_intake", "oil_level",
      "coolant_temperature"]),
   ("fuel_system",
     ["fuel_type", "fuel_percentage", "fuel_level_liters"]),
   ("tire_pressure",
     ["front_left_wheel", "front_right_wheel", "rear_left_wheel",
      "rear_right_wheel"]),
   ("doors_windows",
     ["front_driver_door", "front_passenger_door", "rear_driver_door",
      "rear_passenger_door", "front_driver_window",
      "front_passenger_window", "rear_driver_window",
      "rear_passenger_window"]),
   ("diagnostics",
     ["diagnostic_trouble_codes", "engine_runtime", "intake_temperature",
      "engine_load", "barometric_pressure"]),
   ("environmental",
     ["exterior_air_temperature"]),
   ("device_connectivity",
     ["wifi_status", "ssid", "gps_satellites", "gps_precision"])]

/-- Insertion into an ordered string-keyed dictionary with the update
semantics of a dict assignment: replace in place when the key is present,
append otherwise. -/
def dictInsert (m : List (String × List String)) (k : String)
    (v : List String) : List (String × List String) :=
  if m.any (fun p => p.1 == k) then
    m.map (fun p => if p.1 == k then (k, v) else p)
  else
    m ++ [(k, v)]

/-- STEP 4 (create_category_subcategory_columns): register the category
sampler column over the category keys, then build subcategory_mapping by
iterating the taxonomy items and register the subcategory sampler column
conditioned on the category column. -/
def create_category_subcategory_columns
    (config_builder : DataDesignerConfigBuilder)
    (categories : List (String × List String))
    (model_alias : String) : DataDesignerConfigBuilder :=
  let _ := model_alias
  let category_list := categories.map Prod.fst
  let cb1 := config_builder.add_column (ColumnConfig.sampler
    { name := "category", sampler_type := SamplerType.category,
      params := SamplerParams.categoryP { values := category_list } })
  let subcategory_mapping :=
    categories.foldl (fun m p => dictInsert m p.1 p.2) []
  cb1.add_column (ColumnConfig.sampler
    { name := "subcategory", sampler_type := SamplerType.subcategory,
      params := SamplerParams.subcategoryP
        { category := "category", values := subcategory_mapping } })

/-- STEP 5 (add_telemetry_value_column): register the llm-text column with
its prompt template. -/
def add_telemetry_value_column (config_builder : DataDesignerConfigBuilder)
    (model_alias : String) : DataDesignerConfigBuilder :=
  config_builder.add_column (ColumnConfig.llmText
    { name := "telemetry_value", column_type := "llm-text",
      model_alias := model_alias,
      prompt := "Generate a realistic telemetry value for \x7b\x7bcategory\x7d\x7d - \x7b\x7bsubcategory\x7d\x7d. Return only the numeric value with units." })

/-- The config builder as assembled by main: model configuration, then the
category and subcategory sampler columns, then the telemetry value column. -/
def dimo_config_builder : DataDesignerConfigBuilder :=
  let p := setup_model_configuration
  let categories := define_dimo_categories
  let cb := create_category_subcategory_columns p.1 categories p.2
  add_telemetry_value_column cb p.2

/-- One row of the tabular dataset returned by the service: the category
and subcategory cells, and the telemetry_value cell, which may be missing
(a null cell), meaningful only when the dataset has that column. -/
structure RowData where
  category : String
  subcategory : String
  telemetry_value : Option String
deriving DecidableEq

/-- A tabular dataset: whether the telemetry_value column is among its
columns, and its rows in order (iterated with a default range index). -/
structure Dataset where
  hasTelemetryValueColumn : Bool
  rows : List RowData
deriving DecidableEq

/-- A non-null preview result, by the shapes the script probes for:
a dataset attribute (present or not, and possibly itself null), a data
attribute (likewise), and whether the result is itself iterable, in which
case it carries its tabular content directly. -/
structure PreviewResult where
  dataset_attr : Option (Option Dataset)
  data_attr : Option (Option Dataset)
  iterable_self : Option Dataset
deriving DecidableEq

/-- STEP 6 (generate_dimo_dataset): the outcome of the preview call is
either an exception (error), a null result, or a result container.  An
exception is caught and yields a null dataset.  A non-null result is
unwrapped by trying the dataset attribute, then the data attribute, then
the result itself as an iterable; when no shape applies the function
returns a null dataset without raising. -/
def generate_dimo_dataset
    (preview_call : Except String (Option PreviewResult)) : Option Dataset :=
  match preview_call with
  | Except.error _ => none
  | Except.ok none => none
  | Except.ok (some preview_result) =>
    match preview_result.dataset_attr with
    | some v => v
    | none =>
      match preview_result.data_attr with
      | some v => v
      | none => preview_result.iterable_self

/-- The JSON value of a telemetry_value cell: a missing cell serializes
as null, a present cell as its string. -/
def jsonOfOptValue : Option String → Json
  | none => Json.null
  | some s => Json.str s

/-- The record dictionary built for one row in STEP 7: sample_id, category
and subcategory always; telemetry_value appended exactly when the dataset
has that column, with the cell value (null when the cell is missing). -/
def buildRecord (hasTelemetryColumn : Bool) (idx : ℕ) (row : RowData) :
    List (String × Json) :=
  let record := [("sample_id", Json.int (Int.ofNat idx)),
                 ("category", Json.str row.category),
                 ("subcategory", Json.str row.subcategory)]
  if hasTelemetryColumn then
    record ++ [("telemetry_value", jsonOfOptValue row.telemetry_value)]
  else
    record

/-- The data_list built in STEP 7: one record per row of the dataset,
where iterating the rows yields index labels 0, 1, 2, ... -/
def build_data_list (ds : Dataset) : List (List (String × Json)) :=
  ds.rows.enum.map (fun p => buildRecord ds.hasTelemetryValueColumn p.1 p.2)

/-- STEP 7 (save_and_display_results): a null dataset or an empty dataset
causes an early return with no file write (modelled as none); otherwise
the JSON value written to the output file is the array of record objects. -/
def save_and_display_results (dataset : Option Dataset) : Option Json :=
  match dataset with
  | none => none
  | some ds =>
    if ds.rows.length = 0 then none
    else some (Json.arr ((build_data_list ds).map Json.obj))

/-- Reading the output file back (json.load): the written value must be an
array of objects, each yielding one record dictionary. -/
def parseObjs : List Json → Option (List (List (String × Json)))
  | [] => some []
  | Json.obj fields :: rest => (parseObjs rest).map (fun l => fields :: l)
  | _ => none

/-- Parse a JSON value back into the list of record dictionaries. -/
def jsonToRecords : Json → Option (List (List (String × Json)))
  | Json.arr items => parseObjs items
  | _ => none

/-- Whether a record dictionary carries the telemetry_value key. -/
def recordHasTelemetryKey (rec : List (String × Json)) : Bool :=
  rec.any (fun p => p.1 == "telemetry_value")

/-! ### Helper lemmas shared by the claim theorems -/

/-- Every record starts with its sample_id entry, whatever the column
flag, so looking it up yields the row index. -/
theorem lookup_buildRecord_sample_id (b : Bool) (n : ℕ) (r : RowData) :
    (buildRecord b n r).lookup "sample_id" = some (Json.int (Int.ofNat n)) := by
  cases b <;> rfl

/-- Mapping the sample_id lookup over records built from rows enumerated
from n yields the indices n, n+1, ... in order. -/
theorem map_lookup_sample_id_enumFrom (b : Bool) (l : List RowData) :
    ∀ n : ℕ,
      ((l.enumFrom n).map
          (fun p => (buildRecord b p.1 p.2).lookup "sample_id")) =
        (List.range' n l.length).map (fun i => some (Json.int (Int.ofNat i))) := by
  induction l with
  | nil => intro n; rfl
  | cons r t ih =>
    intro n
    simp only [List.enumFrom, List.range', List.map_cons, List.length_cons]
    rw [lookup_buildRecord_sample_id, ih (n + 1)]

/-- Parsing an array of record objects recovers the records. -/
theorem parseObjs_map_obj (recs : List (List (String × Json))) :
    parseObjs (recs.map Json.obj) = some recs := by
  induction recs with
  | nil => rfl
  | cons rec t ih => simp [parseObjs, ih]

/-- A record carries the telemetry_value key exactly when it was built
with the column flag set. -/
theorem hasKey_buildRecord (b : Bool) (n : ℕ) (r : RowData) :
    recordHasTelemetryKey (buildRecord b n r) = b := by
  cases b <;> rfl

/-! ### Claim theorems -/

/-- C1: the subcategory column registered on the config builder is
conditioned on the category column of the same row: its params name
"category" as the conditioning column, and the values mapping it carries
is exactly the taxonomy, so it sends every category key to exactly the
subcategory list the taxonomy declares for that key. -/
theorem C1_subcategory_conditioned_on_category :
    ∃ sp : SubcategorySamplerParams,
      dimo_config_builder.columns.get? 1 = some (ColumnConfig.sampler
        { name := "subcategory", sampler_type := SamplerType.subcategory,
          params := SamplerParams.subcategoryP sp }) ∧
      sp.category = "category" ∧
      sp.values = define_dimo_categories ∧
      define_dimo_categories.all
        (fun p => sp.values.lookup p.1 == some p.2) = true :=
  ⟨{ category := "category",
     values := define_dimo_categories.foldl (fun m p => dictInsert m p.1 p.2) [] },
   rfl, rfl, by decide, by decide⟩

/-- C2: for every dataset of N valid rows passed to the save step, the
JSON written to the output file is exactly the array of the N record
objects, and the sample_id fields of those records are unique and
sequential, taking exactly the values 0..N-1 in order. -/
theorem C2_sample_ids_sequential (ds : Dataset) (h : ds.rows ≠ []) :
    save_and_display_results (some ds) =
      some (Json.arr ((build_data_list ds).map Json.obj)) ∧
    (build_data_list ds).length = ds.rows.length ∧
    (build_data_list ds).map (fun rec => rec.lookup "sample_id") =
      (List.range ds.rows.length).map (fun i => some (Json.int (Int.ofNat i))) := by
  refine ⟨?_, ?_, ?_⟩
  · have hlen : ¬ ds.rows.length = 0 := fun hl => h (List.length_eq_zero.mp hl)
    simp [save_and_display_results, hlen]
  · simp [build_data_list]
  · have hmain := map_lookup_sample_id_enumFrom ds.hasTelemetryValueColumn ds.rows 0
    simpa [build_data_list, List.enum, List.map_map, Function.comp,
      List.range_eq_range'] using hmain

/-- C2 witness: the save step on a concrete one-row dataset yields the
sample_id sequence 0..0. -/
theorem C2_witness :
    (build_data_list
        { hasTelemetryValueColumn := true,
          rows := [{ category := "fuel_system", subcategory := "fuel_type",
                     telemetry_value := some "42 liters" }] }).map
        (fun rec => rec.lookup "sample_id") =
      (List.range 1).map (fun i => some (Json.int (Int.ofNat i))) :=
  (C2_sample_ids_sequential
    { hasTelemetryValueColumn := true,
      rows := [{ category := "fuel_system", subcategory := "fuel_type",
                 telemetry_value := some "42 liters" }] }
    (by decide)).2.2

/-- C3: a null dataset or an empty dataset makes the save step return
early with no file write; the embedding is a total function, so no
exception is raised on these inputs. -/
theorem C3_null_or_empty_no_write (dataset : Option Dataset)
    (h : dataset = none ∨
      ∃ ds : Dataset, dataset = some ds ∧ ds.rows.length = 0) :
    save_and_display_results dataset = none := by
  rcases h with rfl | ⟨ds, rfl, hlen⟩
  · rfl
  · simp [save_and_display_results, hlen]

/-- C3 witness: the save step on the null dataset writes nothing. -/
theorem C3_witness : save_and_display_results none = none :=
  C3_null_or_empty_no_write none (Or.inl rfl)

/-- C4 counterexample: a row whose telemetry_value cell is absent, in a
dataset that has the telemetry_value column, still produces a record with
the telemetry_value key bound to null — the field is not skipped, which
refutes the claim that the field is present only when the service
returned a value for that row and is skipped (not null) when absent. -/
theorem C4_counterexample :
    (({ category := "engine_metrics", subcategory := "oil_level",
        telemetry_value := none } : RowData)).telemetry_value = none ∧
    save_and_display_results (some
      { hasTelemetryValueColumn := true,
        rows := [{ category := "engine_metrics", subcategory := "oil_level",
                   telemetry_value := none }] }) =
      some (Json.arr [Json.obj
        [("sample_id", Json.int 0),
         ("category", Json.str "engine_metrics"),
         ("subcategory", Json.str "oil_level"),
         ("telemetry_value", Json.null)]]) :=
  ⟨rfl, rfl⟩

/-- C4 amended: every output record always contains the sample_id,
category and subcategory fields, and contains the telemetry_value field
if and only if the dataset has a telemetry_value column — a per-dataset
decision, not a per-row one; a missing cell under an existing column is
emitted as null (see the counterexample), not skipped. -/
theorem C4_record_fields (ds : Dataset) (rec : List (String × Json))
    (h : rec ∈ build_data_list ds) :
    (rec.lookup "sample_id").isSome = true ∧
    (rec.lookup "category").isSome = true ∧
    (rec.lookup "subcategory").isSome = true ∧
    (rec.lookup "telemetry_value").isSome = ds.hasTelemetryValueColumn := by
  simp only [build_data_list, List.mem_map] at h
  obtain ⟨p, hp, rfl⟩ := h
  cases ds.hasTelemetryValueColumn <;> exact ⟨rfl, rfl, rfl, rfl⟩

/-- C4 witness: the record of a concrete row in a dataset without the
telemetry_value column has the three mandatory fields and no
telemetry_value field. -/
theorem C4_witness :
    (([("sample_id", Json.int 0), ("category", Json.str "tire_pressure"),
       ("subcategory", Json.str "front_left_wheel")] :
        List (String × Json)).lookup "sample_id").isSome = true ∧
    (([("sample_id", Json.int 0), ("category", Json.str "tire_pressure"),
       ("subcategory", Json.str "front_left_wheel")] :
        List (String × Json)).lookup "category").isSome = true ∧
    (([("sample_id", Json.int 0), ("category", Json.str "tire_pressure"),
       ("subcategory", Json.str "front_left_wheel")] :
        List (String × Json)).lookup "subcategory").isSome = true ∧
    (([("sample_id", Json.int 0), ("category", Json.str "tire_pressure"),
       ("subcategory", Json.str "front_left_wheel")] :
        List (String × Json)).lookup "telemetry_value").isSome =
      ({ hasTelemetryValueColumn := false,
         rows := [{ category := "tire_pressure",
                    subcategory := "front_left_wheel",
                    telemetry_value := none }] } : Dataset).hasTelemetryValueColumn :=
  C4_record_fields
    { hasTelemetryValueColumn := false,
      rows := [{ category := "tire_pressure",
                 subcategory := "front_left_wheel",
                 telemetry_value := none }] }
    _ (List.Mem.head _)

/-- C5 counterexample: the environmental category has exactly one
subcategory, so the claim that every category has between 3 and 8 leaf
subcategories (together with the 10-category and 47-leaf counts) is false
on the declared taxonomy. -/
theorem C5_counterexample :
    ("environmental", ["exterior_air_temperature"]) ∈ define_dimo_categories ∧
    ¬ (define_dimo_categories.length = 10 ∧
       (∀ p ∈ define_dimo_categories, 3 ≤ p.2.length ∧ p.2.length ≤ 8) ∧
       (define_dimo_categories.map (fun p => p.2.length)).sum = 47) := by
  decide

/-- C5 amended: the statically declared taxonomy contains exactly 10
categories, every category has between 1 and 8 leaf subcategories, and
the total number of leaf subcategories is exactly 47. -/
theorem C5_taxonomy_shape :
    define_dimo_categories.length = 10 ∧
    (∀ p ∈ define_dimo_categories, 1 ≤ p.2.length ∧ p.2.length ≤ 8) ∧
    (define_dimo_categories.map (fun p => p.2.length)).sum = 47 := by
  decide

/-- C6: the taxonomy has no duplicate category keys, no duplicate
subcategory within a single category, and the concatenation of all
subcategory lists has no duplicates at all, so every subcategory name
occurs under exactly one category. -/
theorem C6_taxonomy_uniqueness :
    (define_dimo_categories.map Prod.fst).Nodup ∧
    (∀ p ∈ define_dimo_categories, p.2.Nodup) ∧
    (define_dimo_categories.map Prod.snd).flatten.Nodup := by
  decide

/-- C7: a non-null preview result is normalized in a fixed order — the
dataset attribute first, then the data attribute, then the result itself
as an iterable — and when no shape applies the generation step returns a
null dataset rather than raising (the embedding is total). -/
theorem C7_response_normalization (r : PreviewResult) :
    (∀ v, r.dataset_attr = some v →
      generate_dimo_dataset (Except.ok (some r)) = v) ∧
    (r.dataset_attr = none → ∀ v, r.data_attr = some v →
      generate_dimo_dataset (Except.ok (some r)) = v) ∧
    (r.dataset_attr = none → r.data_attr = none →
      generate_dimo_dataset (Except.ok (some r)) = r.iterable_self) ∧
    (r.dataset_attr = none → r.data_attr = none → r.iterable_self = none →
      generate_dimo_dataset (Except.ok (some r)) = none) := by
  obtain ⟨da, db, it⟩ := r
  refine ⟨fun v hv => ?_, fun h1 v hv => ?_, fun h1 h2 => ?_,
    fun h1 h2 h3 => ?_⟩ <;> simp_all [generate_dimo_dataset]

/-- C7 witness: a preview result exposing a dataset attribute is
normalized to that attribute value. -/
theorem C7_witness :
    generate_dimo_dataset (Except.ok (some
      { dataset_attr := some (some { hasTelemetryValueColumn := true, rows := [] }),
        data_attr := none, iterable_self := none })) =
      some { hasTelemetryValueColumn := true, rows := [] } :=
  (C7_response_normalization _).1 _ rfl

/-- C8: every exception raised during the remote generation call is
caught and yields a null dataset instead of propagating, so callers
observe no dataset produced rather than a crash. -/
theorem C8_generation_error_caught (msg : String) :
    generate_dimo_dataset (Except.error msg) = none := rfl

/-- C8 witness: a concrete connection error degrades to a null dataset. -/
theorem C8_witness :
    generate_dimo_dataset (Except.error "connection refused") = none :=
  C8_generation_error_caught "connection refused"

/-- C9: for every dataset the save step actually writes, parsing the
written JSON value back yields exactly the list of records that was
serialized — the write/read round trip is the identity on records. -/
theorem C9_roundtrip (ds : Dataset) (j : Json)
    (h : save_and_display_results (some ds) = some j) :
    jsonToRecords j = some (build_data_list ds) := by
  by_cases hlen : ds.rows.length = 0
  · simp [save_and_display_results, hlen] at h
  · simp only [save_and_display_results, if_neg hlen, Option.some.injEq] at h
    subst h
    simpa [jsonToRecords] using parseObjs_map_obj (build_data_list ds)

/-- C9 witness: round trip on the output written for a concrete one-row
dataset. -/
theorem C9_witness :
    jsonToRecords (Json.arr ((build_data_list
      { hasTelemetryValueColumn := true,
        rows := [{ category := "environmental",
                   subcategory := "exterior_air_temperature",
                   telemetry_value := some "21 C" }] }).map Json.obj)) =
    some (build_data_list
      { hasTelemetryValueColumn := true,
        rows := [{ category := "environmental",
                   subcategory := "exterior_air_temperature",
                   telemetry_value := some "21 C" }] }) :=
  C9_roundtrip _ _ rfl

/-- C10: within one run of the save step the telemetry_value field is
all-or-none — either every record of the run carries the key or none
does, because the decision reads the dataset-level column set once, never
the individual row. -/
theorem C10_all_or_none (ds : Dataset) :
    (build_data_list ds).all recordHasTelemetryKey = true ∨
    (build_data_list ds).all (fun rec => !recordHasTelemetryKey rec) = true := by
  obtain ⟨b, rows⟩ := ds
  cases b
  · right
    simp only [build_data_list, List.all_eq_true, List.mem_map, Prod.exists,
      Bool.not_eq_true', forall_exists_index, and_imp]
    intro x i r _ hx
    subst hx
    exact hasKey_buildRecord false i r
  · left
    simp only [build_data_list, List.all_eq_true, List.mem_map, Prod.exists,
      forall_exists_index, and_imp]
    intro x i r _ hx
    subst hx
    exact hasKey_buildRecord true i r

/-- C10 witness: on a concrete dataset without the telemetry_value
column, no record carries the key. -/
theorem C10_witness :
    (build_data_list
      { hasTelemetryValueColumn := false,
        rows := [{ category := "diagnostics", subcategory := "engine_load",
                   telemetry_value := none }] }).all
      (fun rec => !recordHasTelemetryKey rec) = true :=
  (C10_all_or_none
    { hasTelemetryValueColumn := false,
      rows := [{ category := "diagnostics", subcategory := "engine_load",
                 telemetry_value := none }] }).resolve_left (by decide)

end VehicleSim
